import Mathlib

/-!
Verification of the healthcare synthetic-data generators
(`generate_pharmacy_data.py`, `generate_ehr_data.py`).

Shallow embedding conventions:
* Python floats are modelled as rationals (`ℚ`); `round(x, 2)` is `round2`.
  Python rounds halves to even; every statement below is tie-independent
  (each proof keeps a margin strictly larger than 1/200 from any boundary,
  or no rounding happens at all), so nearest-integer rounding is used.
* `random.uniform(a, b)` is modelled by `uniformAt a b u` for a draw
  parameter `u` with `0 ≤ u ≤ 1`; `random.random()` is a draw `u` compared
  against the literal threshold, exactly as in the source.
* `random.randint(a, b)` is modelled as `a + u % (b - a + 1)` for an
  arbitrary natural draw `u`, so every value of the range is reachable and
  no value outside it is.
* `random.choice(xs)` is modelled as `xs.getD (u % xs.length) dflt`.
* Dates are day offsets from `START_DATE = 2024-01-01`.  `END_DATE =
  2026-01-27` is offset 757 (2024 is a leap year: 366 + 365 + 26).
-/

/-- `round(x, 2)` of Python, over `ℚ`: round to the nearest multiple of
1/100.  (Python rounds ties to even; no statement in this file depends on
the tie direction.) -/
def round2 (q : ℚ) : ℚ := (round (q * 100) : ℤ) / 100

/-- Value of `random.uniform(a, b)` at draw parameter `u ∈ [0, 1]`. -/
def uniformAt (a b u : ℚ) : ℚ := a + (b - a) * u

/-- Day offset of `END_DATE = datetime(2026, 1, 27)` from
`START_DATE = datetime(2024, 1, 1)`. -/
def END_OFFSET : ℕ := 757

/-! ## Lab reference table and lab-result generation
(`generate_ehr_data.py`, `LAB_TESTS_BY_CONDITION` and `generate_labs`). -/

/-- One `(test_name, component, min, max, unit)` tuple of
`LAB_TESTS_BY_CONDITION`. -/
structure LabTestDef where
  testName : String
  component : String
  refMin : ℚ
  refMax : ℚ
  unit : String
deriving DecidableEq, Repr

/-- `LAB_TESTS_BY_CONDITION` from `generate_ehr_data.py`. -/
def LAB_TESTS_BY_CONDITION : List (String × List LabTestDef) :=
  [("Hypertension",
    [⟨"Basic Metabolic Panel", "Sodium", 135, 145, "mmol/L"⟩,
     ⟨"Basic Metabolic Panel", "Potassium", 3.5, 5.0, "mmol/L"⟩,
     ⟨"Basic Metabolic Panel", "Creatinine", 0.6, 1.2, "mg/dL"⟩,
     ⟨"Lipid Panel", "Total Cholesterol", 125, 200, "mg/dL"⟩]),
   ("Type 2 Diabetes",
    [⟨"Hemoglobin A1C", "HbA1c", 4.0, 5.6, "%"⟩,
     ⟨"Basic Metabolic Panel", "Glucose", 70, 100, "mg/dL"⟩,
     ⟨"Comprehensive Metabolic Panel", "Creatinine", 0.6, 1.2, "mg/dL"⟩,
     ⟨"Lipid Panel", "Total Cholesterol", 125, 200, "mg/dL"⟩,
     ⟨"Lipid Panel", "Triglycerides", 0, 150, "mg/dL"⟩]),
   ("Hyperlipidemia",
    [⟨"Lipid Panel", "Total Cholesterol", 125, 200, "mg/dL"⟩,
     ⟨"Lipid Panel", "LDL", 0, 100, "mg/dL"⟩,
     ⟨"Lipid Panel", "HDL", 40, 60, "mg/dL"⟩,
     ⟨"Lipid Panel", "Triglycerides", 0, 150, "mg/dL"⟩]),
   ("Chronic Pain",
    [⟨"Liver Function Tests", "ALT", 7, 56, "U/L"⟩,
     ⟨"Liver Function Tests", "AST", 10, 40, "U/L"⟩,
     ⟨"Complete Blood Count", "WBC", 4.5, 11.0, "K/uL"⟩]),
   ("Hypothyroidism",
    [⟨"Thyroid Function Tests", "TSH", 0.4, 4.0, "mIU/L"⟩,
     ⟨"Thyroid Function Tests", "Free T4", 0.8, 1.8, "ng/dL"⟩]),
   ("Rheumatoid Arthritis",
    [⟨"Inflammatory Markers", "CRP", 0, 3.0, "mg/L"⟩,
     ⟨"Inflammatory Markers", "ESR", 0, 20, "mm/hr"⟩,
     ⟨"Complete Blood Count", "WBC", 4.5, 11.0, "K/uL"⟩]),
   ("COPD",
    [⟨"Pulmonary Function", "FEV1", 80, 120, "% predicted"⟩,
     ⟨"Arterial Blood Gas", "pH", 7.35, 7.45, ""⟩,
     ⟨"Arterial Blood Gas", "PaO2", 75, 100, "mmHg"⟩]),
   ("Heart Failure",
    [⟨"Cardiac Markers", "BNP", 0, 100, "pg/mL"⟩,
     ⟨"Basic Metabolic Panel", "Sodium", 135, 145, "mmol/L"⟩,
     ⟨"Basic Metabolic Panel", "Creatinine", 0.6, 1.2, "mg/dL"⟩]),
   ("Atrial Fibrillation",
    [⟨"Coagulation Studies", "INR", 0.8, 1.1, ""⟩,
     ⟨"Cardiac Markers", "Troponin", 0, 0.04, "ng/mL"⟩,
     ⟨"Thyroid Function Tests", "TSH", 0.4, 4.0, "mIU/L"⟩])]

/-- The lab panel defined for a condition, if any
(`condition in LAB_TESTS_BY_CONDITION` then indexing). -/
def labPanel (c : String) : List LabTestDef :=
  ((LAB_TESTS_BY_CONDITION.find? (fun p => p.1 == c)).map (fun p => p.2)).getD []

/-- Whether a condition has a lab panel defined. -/
def hasLabPanel (c : String) : Bool :=
  (LAB_TESTS_BY_CONDITION.find? (fun p => p.1 == c)).isSome

/-- The aberration threshold of `generate_labs` as a function of the
patient's condition count: `0.20` for three or more conditions, `0.10`
for two, `0.05` for one.  For zero conditions no branch of the source
`if`/`elif` chain fires and the result stays non-aberrant, which the
threshold `0` reproduces for any draw `u ≥ 0`. -/
def aberrantThreshold (n : ℕ) : ℚ :=
  if 3 ≤ n then 0.20 else if n = 2 then 0.10 else if n = 1 then 0.05 else 0

/-- The `result_value` computed by `generate_labs`: aberrant values are
drawn from `uniform(min*0.5, min*0.95)` (below) or
`uniform(max*1.05, max*1.5)` (above), non-aberrant values from
`uniform(min, max)`; all rounded to two decimals. -/
def labValue (t : LabTestDef) (isAberrant below : Bool) (u : ℚ) : ℚ :=
  if isAberrant then
    if below then round2 (uniformAt (t.refMin * 0.5) (t.refMin * 0.95) u)
    else round2 (uniformAt (t.refMax * 1.05) (t.refMax * 1.5) u)
  else round2 (uniformAt t.refMin t.refMax u)

/-- The `flag` field: `'Abnormal'` exactly when the aberration decision
fired. -/
def labFlag (isAberrant : Bool) : String :=
  if isAberrant then "Abnormal" else "Normal"

/-- One row of the lab-results table.  (The provider NPI and performing
lab, which no claim mentions, are omitted from the projection.) -/
structure LabRow where
  patientId : String
  orderDate : ℕ
  collectionDate : ℕ
  resultDate : ℕ
  testName : String
  component : String
  resultValue : ℚ
  unit : String
  refMin : ℚ
  refMax : ℚ
  flag : String
deriving DecidableEq, Repr

/-- The random draws consumed by `generate_labs`, indexed by condition
index `i`, test-event index `j`, and panel-component index `k`. -/
structure LabRand where
  numLabsU : ℕ → ℕ          -- randint(2, 4) per condition
  dateU : ℕ → ℕ → ℕ         -- randint(0, 730) per test event
  aberU : ℕ → ℕ → ℕ → ℚ     -- random() for the aberration decision
  belowU : ℕ → ℕ → ℕ → ℚ    -- random() choosing below vs above range
  valU : ℕ → ℕ → ℕ → ℚ      -- uniform draw parameter for the value
  resultOffU : ℕ → ℕ → ℕ → ℕ -- randint(1, 3) result-date offset

/-- The row emitted for one panel component of one test event. -/
def labRowFor (pid : String) (numConditions : ℕ) (testDate : ℕ)
    (t : LabTestDef) (aberU belowU valU : ℚ) (resultOffU : ℕ) : LabRow :=
  let isAberrant := decide (aberU < aberrantThreshold numConditions)
  let below := decide (belowU < 0.5)
  { patientId := pid
    orderDate := testDate
    collectionDate := testDate
    resultDate := testDate + 1 + resultOffU % 3
    testName := t.testName
    component := t.component
    resultValue := labValue t isAberrant below valU
    unit := t.unit
    refMin := t.refMin
    refMax := t.refMax
    flag := labFlag isAberrant }

/-- `generate_labs(patient_id, conditions, age)`: for each condition with
a defined panel, 2–4 test events, each emitting one row per panel
component with a shared test date. -/
def generateLabs (pid : String) (conds : List String) (r : LabRand) : List LabRow :=
  conds.enum.flatMap fun ic =>
    let i := ic.1
    match LAB_TESTS_BY_CONDITION.find? (fun p => p.1 == ic.2) with
    | none => []
    | some p =>
      let numLabs := 2 + r.numLabsU i % 3
      (List.range numLabs).flatMap fun j =>
        let testDate := r.dateU i j % 731
        p.2.enum.map fun kt =>
          labRowFor pid conds.length testDate kt.2
            (r.aberU i j kt.1) (r.belowU i j kt.1) (r.valU i j kt.1)
            (r.resultOffU i j kt.1)

/-- A draw record sending every random draw to `0`: every aberration
decision fires (`0 < 0.05`), the below-range branch is taken
(`0 < 0.5`), and every uniform draw sits at the left end of its range. -/
def labRandZero : LabRand :=
  { numLabsU := fun _ => 0, dateU := fun _ _ => 0, aberU := fun _ _ _ => 0
    belowU := fun _ _ _ => 0, valU := fun _ _ _ => 0, resultOffU := fun _ _ _ => 0 }

/-- C1: for a panel component whose reference minimum is `0`
(Triglycerides, reference range `[0, 150]`, on the Type 2 Diabetes
panel), the below-range aberrant branch draws from `uniform(0*0.5,
0*0.95)`, which is identically `0` — a value inside the closed reference
interval — while the row is flagged `'Abnormal'`.  The flag therefore
does not coincide with the value lying outside `[reference_min,
reference_max]`: `generate_labs` emits, on a reachable draw, a row
flagged `'Abnormal'` whose value `0` satisfies
`reference_min ≤ value ≤ reference_max`. -/
theorem C1_abnormal_flag_with_in_range_value :
    ∃ row, row ∈ generateLabs "PT00001" ["Type 2 Diabetes"] labRandZero ∧
      row.flag = "Abnormal" ∧
      row.refMin ≤ row.resultValue ∧ row.resultValue ≤ row.refMax := by
  refine ⟨{ patientId := "PT00001", orderDate := 0, collectionDate := 0,
            resultDate := 1, testName := "Lipid Panel",
            component := "Triglycerides", resultValue := 0, unit := "mg/dL",
            refMin := 0, refMax := 150, flag := "Abnormal" }, ?_, rfl, ?_, ?_⟩
  · exact of_decide_eq_true (by with_unfolding_all rfl)
  · norm_num
  · norm_num

/-! ## Disease reference table and condition assignment
(`generate_pharmacy_data.py`, `DISEASE_MEDICATIONS` and
`assign_conditions`). -/

/-- One entry of `DISEASE_MEDICATIONS`: parallel medication/NDC arrays,
base prevalence, age factor, REMS flag, and optional gender
restriction. -/
structure DiseaseInfo where
  name : String
  medications : List String
  ndcs : List String
  prevalence : ℚ
  ageFactor : ℕ → ℚ
  rems : Bool
  genderReq : Option String

/-- `DISEASE_MEDICATIONS` from `generate_pharmacy_data.py` (entries in
source dictionary order; ages are the integer ages the generator
produces). -/
def DISEASE_MEDICATIONS : List DiseaseInfo :=
  [⟨"Hypertension",
    ["Lisinopril", "Amlodipine", "Losartan", "Metoprolol", "Hydrochlorothiazide", "Atenolol"],
    ["00603-5729-21", "00093-7369-98", "00093-7365-98", "00378-0520-93", "00172-4880-60", "00378-1050-01"],
    0.29, fun age => if age > 45 then 1.5 else 0.5, false, none⟩,
   ⟨"Type 2 Diabetes",
    ["Metformin", "Glipizide", "Sitagliptin", "Empagliflozin", "Insulin Glargine", "Dulaglutide"],
    ["00093-7214-01", "00093-7267-01", "00025-1489-31", "00597-0143-30", "00088-2220-33", "00002-8977-01"],
    0.11, fun age => if age > 45 then 2.0 else 0.3, false, none⟩,
   ⟨"Asthma",
    ["Albuterol HFA", "Fluticasone Prop HFA", "Montelukast", "Budesonide/Formoterol", "Fluticasone/Salmeterol"],
    ["00173-0682-20", "00173-0862-00", "00093-7355-56", "00186-0791-60", "00173-0715-20"],
    0.08, fun age => if age < 18 || age > 65 then 1.2 else 1.0, false, none⟩,
   ⟨"Hyperlipidemia",
    ["Atorvastatin", "Rosuvastatin", "Simvastatin", "Pravastatin", "Ezetimibe"],
    ["00071-0155-23", "00093-7663-98", "00093-7352-98", "00093-5108-98", "00093-7449-98"],
    0.39, fun age => if age > 40 then 2.5 else 0.2, false, none⟩,
   ⟨"Depression",
    ["Sertraline", "Escitalopram", "Fluoxetine", "Bupropion XL", "Duloxetine", "Venlafaxine ER"],
    ["00093-7212-01", "00093-5040-98", "00093-7198-56", "00591-5443-01", "00093-7383-56", "00093-7390-56"],
    0.21, fun age => if 18 ≤ age ∧ age ≤ 44 then 1.3 else 1.0, false, none⟩,
   ⟨"Anxiety Disorder",
    ["Alprazolam", "Lorazepam", "Buspirone", "Hydroxyzine", "Clonazepam"],
    ["00093-0253-01", "00054-4469-25", "00591-3440-01", "00054-3177-25", "00093-0832-01"],
    0.19, fun age => if 18 ≤ age ∧ age ≤ 54 then 1.2 else 0.9, false, none⟩,
   ⟨"GERD",
    ["Omeprazole", "Pantoprazole", "Esomeprazole", "Lansoprazole", "Famotidine"],
    ["00093-7267-56", "00093-5129-98", "00093-7711-28", "00093-2035-98", "00093-2748-01"],
    0.20, fun age => if age > 50 then 1.5 else 0.8, false, none⟩,
   ⟨"Hypothyroidism",
    ["Levothyroxine 25mcg", "Levothyroxine 50mcg", "Levothyroxine 75mcg", "Levothyroxine 100mcg"],
    ["00378-1805-10", "00378-1810-10", "00378-1815-10", "00378-1820-10"],
    0.05, fun age => if age > 60 then 2.0 else 0.5, false, none⟩,
   ⟨"Osteoarthritis",
    ["Meloxicam", "Celecoxib", "Diclofenac Sodium", "Naproxen", "Tramadol"],
    ["00093-7407-01", "00071-0737-40", "00591-3699-01", "00093-0148-01", "00093-0058-01"],
    0.14, fun age => if age > 65 then 3.0 else 0.3, false, none⟩,
   ⟨"Chronic Pain",
    ["Hydrocodone/APAP", "Oxycodone/APAP", "Morphine Sulfate ER", "Tramadol", "Gabapentin"],
    ["00406-0365-01", "00406-0512-01", "00406-8530-01", "00093-0058-01", "00093-0366-01"],
    0.11, fun age => if age > 50 then 1.5 else 0.7, true, none⟩,
   ⟨"Schizophrenia",
    ["Olanzapine", "Risperidone", "Quetiapine", "Aripiprazole", "Clozapine"],
    ["00093-7379-56", "00093-7243-28", "00093-7725-56", "00378-3890-93", "00378-0555-93"],
    0.01, fun _ => 1.0, true, none⟩,
   ⟨"Severe Acne",
    ["Isotretinoin"],
    ["00406-1982-01"],
    0.001, fun age => if 15 ≤ age ∧ age ≤ 25 then 10.0 else 0.01, true, none⟩,
   ⟨"Multiple Sclerosis",
    ["Glatiramer Acetate", "Dimethyl Fumarate", "Fingolimod"],
    ["00781-5115-31", "00555-2020-02", "00078-0607-51"],
    0.0003, fun age => if 20 ≤ age ∧ age ≤ 60 then 2.0 else 0.1, true, none⟩,
   ⟨"Migraine",
    ["Sumatriptan", "Topiramate", "Propranolol", "Amitriptyline", "Rizatriptan"],
    ["00093-2250-11", "00093-5074-01", "00378-0499-01", "00093-0057-01", "00378-6090-93"],
    0.12, fun age => if 20 ≤ age ∧ age ≤ 55 then 1.5 else 0.7, false, none⟩,
   ⟨"Epilepsy",
    ["Levetiracetam", "Lamotrigine", "Valproic Acid", "Carbamazepine", "Phenytoin"],
    ["00093-5056-01", "00093-0160-01", "00378-1814-01", "00378-0321-01", "00378-0301-01"],
    0.01, fun _ => 1.0, false, none⟩,
   ⟨"Rheumatoid Arthritis",
    ["Methotrexate", "Hydroxychloroquine", "Sulfasalazine", "Adalimumab", "Etanercept"],
    ["00054-0045-25", "00093-3114-01", "00378-6003-01", "00074-4339-02", "58406-0435-01"],
    0.007, fun age => if age > 50 then 2.0 else 0.5, false, none⟩,
   ⟨"COPD",
    ["Tiotropium Bromide", "Albuterol/Ipratropium", "Fluticasone/Vilanterol", "Umeclidinium/Vilanterol"],
    ["00597-0075-41", "00487-9001-99", "00173-0861-10", "00173-0857-10"],
    0.06, fun age => if age > 65 then 5.0 else 0.2, false, none⟩,
   ⟨"Atrial Fibrillation",
    ["Apixaban", "Rivaroxaban", "Warfarin", "Metoprolol", "Diltiazem"],
    ["00003-0893-21", "50458-0597-10", "00378-3058-01", "00378-0520-93", "00378-0165-10"],
    0.033, fun age => if age > 75 then 10.0 else 0.1, false, none⟩,
   ⟨"Heart Failure",
    ["Furosemide", "Carvedilol", "Spironolactone", "Lisinopril", "Sacubitril/Valsartan"],
    ["00378-0201-01", "00378-1805-01", "00378-0065-01", "00603-5729-21", "00078-0699-15"],
    0.024, fun age => if age > 75 then 8.0 else 0.1, false, none⟩,
   ⟨"Benign Prostatic Hyperplasia",
    ["Tamsulosin", "Finasteride", "Dutasteride", "Alfuzosin"],
    ["00093-7338-28", "00093-1087-01", "00591-3660-01", "00093-7520-28"],
    0.14, fun age => if age > 60 then 15.0 else 0.0, false, some "M"⟩,
   ⟨"Overactive Bladder",
    ["Oxybutynin", "Tolterodine", "Solifenacin", "Mirabegron"],
    ["00378-0685-01", "00093-5147-56", "00093-7667-56", "00591-3752-30"],
    0.16, fun age => if age > 65 then 3.0 else 0.5, false, none⟩]

/-- Look a condition up in `DISEASE_MEDICATIONS` by name. -/
def diseaseInfo? (n : String) : Option DiseaseInfo :=
  DISEASE_MEDICATIONS.find? (fun d => d.name == n)

/-- A placeholder entry used only to totalise lookups that the source
never performs on a missing key. -/
def noDisease : DiseaseInfo := ⟨"", [], [], 0, fun _ => 0, false, none⟩

/-- `base_prevalence * age_factor(age)` — the probability
`assign_conditions` feeds to each per-condition Bernoulli draw.  The
source applies no clamp to this product. -/
def effectiveProbability (d : DiseaseInfo) (age : ℕ) : ℚ :=
  d.prevalence * d.ageFactor age

/-- The gender gate of `assign_conditions`: a condition carrying a
`gender` tag is skipped entirely unless the tag equals the patient's
gender. -/
def genderEligible (d : DiseaseInfo) (gender : String) : Bool :=
  match d.genderReq with
  | none => true
  | some g => g == gender

/-- The gender-eligible sublist of the table, in source order. -/
def eligibleConditions (gender : String) : List DiseaseInfo :=
  DISEASE_MEDICATIONS.filter (fun d => genderEligible d gender)

/-- `assign_conditions(age, gender)`: one Bernoulli draw `u c` per
gender-eligible condition `c`, compared against the unclamped
`effectiveProbability`; if no condition fires and the fallback draw is
below `0.5`, exactly one condition is chosen uniformly from the
gender-eligible universe (`choiceIdx` models `random.choice`). -/
def assignConditions (age : ℕ) (gender : String) (u : String → ℚ)
    (fallbackU : ℚ) (choiceIdx : ℕ) : List String :=
  let conditions := ((eligibleConditions gender).filter
    (fun d => decide (u d.name < effectiveProbability d age))).map (fun d => d.name)
  if conditions.isEmpty ∧ fallbackU < 1/2 then
    let possible := (eligibleConditions gender).map (fun d => d.name)
    if h : possible.length = 0 then conditions
    else [possible.get ⟨choiceIdx % possible.length, Nat.mod_lt _ (Nat.pos_of_ne_zero h)⟩]
  else conditions

/-- C6 (counterexample): for `'Benign Prostatic Hyperplasia'` at age 61
the effective probability is `0.14 * 15.0 = 2.1 > 1`, and the
implementation applies no clamp — refuting the claim that the effective
probability used in the Bernoulli draw never exceeds `1.0`. -/
theorem C6_effective_probability_exceeds_one :
    ∃ d, diseaseInfo? "Benign Prostatic Hyperplasia" = some d ∧
      effectiveProbability d 61 = 21/10 ∧ ¬ effectiveProbability d 61 ≤ 1 := by
  refine ⟨_, rfl, ?_, ?_⟩
  · norm_num [effectiveProbability]
  · norm_num [effectiveProbability]

/-- C6 (amended): `assign_conditions` applies no clamp and the product
`base_prevalence * age_factor(age)` can exceed `1.0` (Benign Prostatic
Hyperplasia for males over 60 yields `2.1`); however, because the draw
is `random() < p` with `random() ∈ [0, 1)`, the observable outcome of
every Bernoulli draw is identical to the outcome under a defensive clamp
of the effective probability to `1.0`. -/
theorem C6_draw_behaves_as_clamped (d : DiseaseInfo) (age : ℕ) (u : ℚ)
    (h0 : 0 ≤ u) (h1 : u < 1) :
    u < effectiveProbability d age ↔ u < min (effectiveProbability d age) 1 := by
  rw [lt_min_iff]
  exact ⟨fun h => ⟨h, h1⟩, fun h => h.1⟩

/-- Witness for `C6_draw_behaves_as_clamped` at the Benign Prostatic
Hyperplasia entry, age 61, draw `1/2`. -/
theorem C6_draw_behaves_as_clamped_witness :
    (1:ℚ)/2 < effectiveProbability ((diseaseInfo? "Benign Prostatic Hyperplasia").getD noDisease) 61 ↔
      (1:ℚ)/2 < min (effectiveProbability ((diseaseInfo? "Benign Prostatic Hyperplasia").getD noDisease) 61) 1 :=
  C6_draw_behaves_as_clamped ((diseaseInfo? "Benign Prostatic Hyperplasia").getD noDisease) 61
    ((1:ℚ)/2) (by norm_num) (by norm_num)

/-- C7: every condition returned by `assign_conditions` — whether via a
per-condition Bernoulli draw or via the empty-set fallback — names an
entry of `DISEASE_MEDICATIONS`, and that entry's gender restriction, if
any, matches the patient's gender. -/
theorem C7_assigned_conditions_in_table (age : ℕ) (gender : String)
    (u : String → ℚ) (fallbackU : ℚ) (choiceIdx : ℕ) (c : String)
    (hc : c ∈ assignConditions age gender u fallbackU choiceIdx) :
    ∃ d, d ∈ DISEASE_MEDICATIONS ∧ d.name = c ∧
      (d.genderReq = none ∨ d.genderReq = some gender) := by
  have key : ∀ d, d ∈ eligibleConditions gender →
      ∃ d', d' ∈ DISEASE_MEDICATIONS ∧ d'.name = d.name ∧
        (d'.genderReq = none ∨ d'.genderReq = some gender) := by
    intro d hd
    rw [eligibleConditions, List.mem_filter] at hd
    refine ⟨d, hd.1, rfl, ?_⟩
    revert hd
    cases hg : d.genderReq with
    | none => exact fun _ => Or.inl rfl
    | some g =>
      intro hd
      have hge := hd.2
      rw [genderEligible, hg] at hge
      have hbe : (g == gender) = true := hge
      have hgg : g = gender := eq_of_beq hbe
      exact Or.inr (by rw [hgg])
  rw [assignConditions] at hc
  by_cases hif : (((eligibleConditions gender).filter
      (fun d => decide (u d.name < effectiveProbability d age))).map (fun d => d.name)).isEmpty ∧ fallbackU < 1/2
  · rw [if_pos hif] at hc
    by_cases hlen : ((eligibleConditions gender).map (fun d => d.name)).length = 0
    · rw [dif_pos hlen] at hc
      rw [List.mem_map] at hc
      obtain ⟨d, hd, hdn⟩ := hc
      obtain ⟨d', h1, h2, h3⟩ := key d (List.mem_of_mem_filter hd)
      exact ⟨d', h1, by rw [h2, hdn], h3⟩
    · rw [dif_neg hlen] at hc
      rw [List.mem_singleton] at hc
      have hmem : c ∈ (eligibleConditions gender).map (fun d => d.name) := by
        rw [hc]; exact List.get_mem _ _ _
      rw [List.mem_map] at hmem
      obtain ⟨d, hd, hdn⟩ := hmem
      obtain ⟨d', h1, h2, h3⟩ := key d hd
      exact ⟨d', h1, by rw [h2, hdn], h3⟩
  · rw [if_neg hif] at hc
    rw [List.mem_map] at hc
    obtain ⟨d, hd, hdn⟩ := hc
    obtain ⟨d', h1, h2, h3⟩ := key d (List.mem_of_mem_filter hd)
    exact ⟨d', h1, by rw [h2, hdn], h3⟩

/-- Witness for `C7_assigned_conditions_in_table`: with every Bernoulli
draw at `1` no condition fires, the fallback draw `0 < 0.5` fires, and
`choiceIdx = 0` selects `'Hypertension'`. -/
theorem C7_assigned_conditions_in_table_witness :
    ∃ d, d ∈ DISEASE_MEDICATIONS ∧ d.name = "Hypertension" ∧
      (d.genderReq = none ∨ d.genderReq = some "M") :=
  C7_assigned_conditions_in_table 30 "M" (fun _ => 1) 0 0 "Hypertension"
    (of_decide_eq_true (by with_unfolding_all rfl))

/-! ## Prescriptions and refill expansion
(`generate_pharmacy_data.py`, `generate_prescriptions`). -/

/-- Substring test: `sub in s` of Python (for nonempty `sub`), via
`String.splitOn` — `s` contains `sub` iff splitting on it yields more
than one piece. -/
def containsSub (s sub : String) : Bool := decide (2 ≤ (s.splitOn sub).length)

/-- The quantity / days-supply policy of `generate_prescriptions`:
inhalers (`'inhaler'`/`'hfa'` in the lowercased name) get `(1, 30)`;
insulins get `(choice [1,3,5], 30)`; otherwise a 5% aberrant branch
draws `randint(1,500) × randint(1,180)`, and the base case picks
`choice [30,60,90]` with days-supply equal to quantity. -/
def quantityDaysSupply (medicationName : String) (aberrant : Bool)
    (abQ abDS qChoice : ℕ) : ℕ × ℕ :=
  let lower := medicationName.toLower
  if containsSub lower "inhaler" || containsSub lower "hfa" then (1, 30)
  else if containsSub lower "insulin" then ([1, 3, 5].getD (qChoice % 3) 1, 30)
  else if aberrant then (1 + abQ % 500, 1 + abDS % 180)
  else
    let q := [30, 60, 90].getD (qChoice % 3) 30
    (q, q)

/-- One row of the prescriptions table.  `rxNumber` is the numeric value
behind the formatted `RX%08d` string; the SIG text and prescriber NPI,
which no claim mentions, are omitted. -/
structure RxRow where
  rxNumber : ℕ
  patientId : String
  medicationName : String
  ndc : String
  quantity : ℕ
  daysSupply : ℕ
  writtenDate : ℕ
  fillDate : ℕ
  refillNumber : ℕ
  copay : ℚ
  condition : String
  isRems : Bool
deriving DecidableEq, Repr

/-- The random draws consumed for one prescription of the inner loop. -/
structure RxDraw where
  condChoice : ℕ   -- random.choice over the patient's conditions
  medChoice : ℕ    -- random.randint(0, len(medications)-1)
  wOff : ℕ         -- randint(0, 730): written_date offset
  fOff : ℕ         -- randint(0, 7): fill_date - written_date
  aberrant : Bool  -- random.random() < 0.05 on the non-inhaler path
  abQ : ℕ          -- randint(1, 500) aberrant quantity
  abDS : ℕ         -- randint(1, 180) aberrant days supply
  qChoice : ℕ      -- random.choice for quantity
  copayU : ℚ       -- random.uniform draw for the copay
  numRefills : ℕ   -- randint(1, 3) refill count for maintenance conditions
deriving Repr

/-- The original-fill row (refill_number 0) built by the prescription
loop body. -/
def mkProto (rx : ℕ) (pid : String) (conds : List String) (d : RxDraw) : RxRow :=
  let condition := conds.getD (d.condChoice % conds.length) ""
  let info := (diseaseInfo? condition).getD noDisease
  let medIdx := d.medChoice % info.medications.length
  let medicationName := info.medications.getD medIdx ""
  let ndc := info.ndcs.getD medIdx ""
  let written := d.wOff % 731
  let fill := written + d.fOff % 8
  let qd := quantityDaysSupply medicationName d.aberrant d.abQ d.abDS d.qChoice
  let copay := if info.rems then round2 (uniformAt 50 500 d.copayU)
               else round2 (uniformAt 5 75 d.copayU)
  { rxNumber := rx, patientId := pid, medicationName := medicationName,
    ndc := ndc, quantity := qd.1, daysSupply := qd.2, writtenDate := written,
    fillDate := fill, refillNumber := 0, copay := copay,
    condition := condition, isRems := info.rems }

/-- The refill loop of `generate_prescriptions`, starting at refill
index `k` with `remaining` iterations left: each refill copies the
original row, sets `fill_date = fill_date + days_supply * refill`, and
the loop `break`s at the first refill whose computed date exceeds
`END_DATE`. -/
def refillsFrom (proto : RxRow) : ℕ → ℕ → List RxRow
  | _, 0 => []
  | k, r + 1 =>
    if proto.fillDate + proto.daysSupply * k > END_OFFSET then []
    else { proto with fillDate := proto.fillDate + proto.daysSupply * k,
                      refillNumber := k } :: refillsFrom proto (k + 1) r

/-- The conditions whose prescriptions receive refills. -/
def MAINTENANCE_CONDITIONS : List String :=
  ["Hypertension", "Type 2 Diabetes", "Hyperlipidemia", "Hypothyroidism"]

/-- One prescription family: the original fill plus its refills (only
maintenance conditions refill). -/
def rxFamily (proto : RxRow) (numRefills : ℕ) : List RxRow :=
  proto :: (if proto.condition ∈ MAINTENANCE_CONDITIONS
            then refillsFrom proto 1 numRefills else [])

/-- `patient['conditions'].split('|') if patient['conditions'] != 'None'
else []`. -/
def parseConditions (s : String) : List String :=
  if s = "None" then [] else s.splitOn "|"

/-- The per-patient prescription loop: one family per draw record, with
the `rx_counter` advancing once per original fill (refills keep the
family's number). -/
def emitRxList (pid : String) (conds : List String) : ℕ → List RxDraw → List RxRow
  | _, [] => []
  | rx, d :: ds =>
    rxFamily (mkProto rx pid conds d) d.numRefills ++ emitRxList pid conds (rx + 1) ds

/-- Prescriptions for one patient: condition-free patients (conditions
string `'None'`) are skipped entirely. -/
def prescriptionsForPatient (rx : ℕ) (pid condStr : String)
    (draws : List RxDraw) : List RxRow :=
  let conds := parseConditions condStr
  if conds.isEmpty then [] else emitRxList pid conds rx draws

/-- How far one patient advances the global `rx_counter`. -/
def numOriginals (condStr : String) (draws : List RxDraw) : ℕ :=
  if (parseConditions condStr).isEmpty then 0 else draws.length

/-- The per-patient input of `generate_prescriptions`: patient id,
conditions string, and the draw records for that patient's
`num_prescriptions` loop iterations. -/
structure PrescInput where
  pid : String
  condStr : String
  draws : List RxDraw
deriving Repr

/-- `generate_prescriptions(patients_df)` over the roster, threading the
global `rx_counter` (first argument). -/
def generatePrescriptions : ℕ → List PrescInput → List RxRow
  | _, [] => []
  | rx, p :: ps =>
    prescriptionsForPatient rx p.pid p.condStr p.draws ++
      generatePrescriptions (rx + numOriginals p.condStr p.draws) ps

/-- Every row of the refill loop: its refill index lies in
`[k, k + rem)`, its fill date is the original fill date plus
`days_supply * refill`, and it never exceeds `END_DATE`. -/
theorem refillsFrom_mem {proto : RxRow} {k rem : ℕ} {r : RxRow}
    (h : r ∈ refillsFrom proto k rem) :
    ∃ j, k ≤ j ∧ j < k + rem ∧
      r = { proto with fillDate := proto.fillDate + proto.daysSupply * j,
                       refillNumber := j } ∧
      proto.fillDate + proto.daysSupply * j ≤ END_OFFSET := by
  induction rem generalizing k with
  | zero => simp [refillsFrom] at h
  | succ n ih =>
    rw [refillsFrom] at h
    by_cases hd : proto.fillDate + proto.daysSupply * k > END_OFFSET
    · rw [if_pos hd] at h
      simp at h
    · rw [if_neg hd] at h
      rcases List.mem_cons.mp h with h1 | h2
      · exact ⟨k, le_refl k, by omega, h1, by omega⟩
      · obtain ⟨j, hj1, hj2, hj3, hj4⟩ := ih h2
        exact ⟨j, by omega, by omega, hj3, hj4⟩

/-- Truncation, not skipping: a refill whose computed date is within the
horizon is emitted whenever its index is within the loop range. -/
theorem refillsFrom_mem_of {proto : RxRow} {k rem j : ℕ}
    (hkj : k ≤ j) (hjr : j < k + rem)
    (hle : proto.fillDate + proto.daysSupply * j ≤ END_OFFSET) :
    { proto with fillDate := proto.fillDate + proto.daysSupply * j,
                 refillNumber := j } ∈ refillsFrom proto k rem := by
  induction rem generalizing k with
  | zero => omega
  | succ n ih =>
    rw [refillsFrom]
    have hmono : proto.daysSupply * k ≤ proto.daysSupply * j :=
      Nat.mul_le_mul_left _ hkj
    rw [if_neg (by omega)]
    rcases Nat.eq_or_lt_of_le hkj with he | hlt
    · subst he
      exact List.mem_cons_self _ _
    · exact List.mem_cons_of_mem _ (ih hlt (by omega))

/-- The refill loop emits strictly increasing refill indices and — when
`days_supply ≥ 1` — strictly increasing fill dates. -/
theorem refillsFrom_pairwise {proto : RxRow} (hds : 1 ≤ proto.daysSupply)
    (k rem : ℕ) :
    (refillsFrom proto k rem).Pairwise
      (fun a b => a.refillNumber < b.refillNumber ∧ a.fillDate < b.fillDate) := by
  induction rem generalizing k with
  | zero => exact List.Pairwise.nil
  | succ n ih =>
    rw [refillsFrom]
    by_cases hd : proto.fillDate + proto.daysSupply * k > END_OFFSET
    · rw [if_pos hd]
      exact List.Pairwise.nil
    · rw [if_neg hd]
      refine List.pairwise_cons.mpr ⟨?_, ih (k + 1)⟩
      intro r hr
      obtain ⟨j, hj1, _, hj3, _⟩ := refillsFrom_mem hr
      subst hj3
      refine ⟨by show k < j; omega, ?_⟩
      show proto.fillDate + proto.daysSupply * k < proto.fillDate + proto.daysSupply * j
      have h1 : proto.daysSupply * (k + 1) ≤ proto.daysSupply * j :=
        Nat.mul_le_mul_left _ (by omega)
      have h2 : proto.daysSupply * (k + 1) = proto.daysSupply * k + proto.daysSupply := by
        ring
      omega

/-- The days-supply computed by the dosing policy is always at least 1
(`30`, `30`, `randint(1, 180)`, or a member of `{30, 60, 90}`). -/
theorem quantityDaysSupply_snd_pos (m : String) (a : Bool) (q1 q2 q3 : ℕ) :
    1 ≤ (quantityDaysSupply m a q1 q2 q3).2 := by
  rw [quantityDaysSupply]
  split_ifs
  · show (1 : ℕ) ≤ 30
    omega
  · show (1 : ℕ) ≤ 30
    omega
  · show (1 : ℕ) ≤ 1 + q2 % 180
    omega
  · show (1 : ℕ) ≤ [30, 60, 90].getD (q3 % 3) 30
    have h3 : q3 % 3 = 0 ∨ q3 % 3 = 1 ∨ q3 % 3 = 2 := by omega
    rcases h3 with h | h | h <;> rw [h] <;> decide

/-- The original fill built by the loop body has `days_supply ≥ 1`,
its fill date at most `730 + 7 = 737` days after `START_DATE` (hence
within the horizon), and `refill_number = 0`. -/
theorem mkProto_facts (rx : ℕ) (pid : String) (conds : List String) (d : RxDraw) :
    1 ≤ (mkProto rx pid conds d).daysSupply ∧
      (mkProto rx pid conds d).fillDate ≤ 737 ∧
      (mkProto rx pid conds d).refillNumber = 0 := by
  refine ⟨quantityDaysSupply_snd_pos _ _ _ _ _, ?_, rfl⟩
  show d.wOff % 731 + d.fOff % 8 ≤ 737
  have h1 : d.wOff % 731 < 731 := Nat.mod_lt _ (by omega)
  have h2 : d.fOff % 8 < 8 := Nat.mod_lt _ (by omega)
  omega

/-- C3: in every prescription family, `days_supply ≥ 1`; every row's
fill date equals the original fill date plus `days_supply *
refill_number` and does not exceed `END_DATE` (offset 757 =
2026-01-27); rows are strictly increasing in both refill number and
fill date; and the refill loop truncates rather than skips — any refill
index within the drawn range whose computed date is within the horizon
is emitted (for a maintenance condition). -/
theorem C3_refill_family_dates (rx : ℕ) (pid : String) (conds : List String)
    (d : RxDraw) :
    1 ≤ (mkProto rx pid conds d).daysSupply ∧
    (∀ r ∈ rxFamily (mkProto rx pid conds d) d.numRefills,
        r.fillDate = (mkProto rx pid conds d).fillDate +
          (mkProto rx pid conds d).daysSupply * r.refillNumber ∧
        r.fillDate ≤ END_OFFSET) ∧
    (rxFamily (mkProto rx pid conds d) d.numRefills).Pairwise
      (fun a b => a.refillNumber < b.refillNumber ∧ a.fillDate < b.fillDate) ∧
    (∀ k, 1 ≤ k → k ≤ d.numRefills →
        (mkProto rx pid conds d).condition ∈ MAINTENANCE_CONDITIONS →
        (mkProto rx pid conds d).fillDate +
          (mkProto rx pid conds d).daysSupply * k ≤ END_OFFSET →
        { mkProto rx pid conds d with
            fillDate := (mkProto rx pid conds d).fillDate +
              (mkProto rx pid conds d).daysSupply * k,
            refillNumber := k } ∈ rxFamily (mkProto rx pid conds d) d.numRefills) := by
  obtain ⟨hds, hfill, hzero⟩ := mkProto_facts rx pid conds d
  set proto := mkProto rx pid conds d with hproto
  have hfill757 : proto.fillDate ≤ END_OFFSET := by
    rw [END_OFFSET]; omega
  refine ⟨hds, ?_, ?_, ?_⟩
  · intro r hr
    rw [rxFamily] at hr
    rcases List.mem_cons.mp hr with h1 | h2
    · subst h1
      exact ⟨by rw [hzero]; ring, hfill757⟩
    · by_cases hm : proto.condition ∈ MAINTENANCE_CONDITIONS
      · rw [if_pos hm] at h2
        obtain ⟨j, _, _, hj3, hj4⟩ := refillsFrom_mem h2
        subst hj3
        exact ⟨rfl, hj4⟩
      · rw [if_neg hm] at h2
        simp at h2
  · rw [rxFamily]
    refine List.pairwise_cons.mpr ⟨?_, ?_⟩
    · intro r hr
      by_cases hm : proto.condition ∈ MAINTENANCE_CONDITIONS
      · rw [if_pos hm] at hr
        obtain ⟨j, hj1, _, hj3, _⟩ := refillsFrom_mem hr
        subst hj3
        refine ⟨by show proto.refillNumber < j; omega, ?_⟩
        show proto.fillDate < proto.fillDate + proto.daysSupply * j
        have : proto.daysSupply * 1 ≤ proto.daysSupply * j :=
          Nat.mul_le_mul_left _ hj1
        have h2 : proto.daysSupply * 1 = proto.daysSupply := by ring
        omega
      · rw [if_neg hm] at hr
        simp at hr
    · by_cases hm : proto.condition ∈ MAINTENANCE_CONDITIONS
      · rw [if_pos hm]
        exact refillsFrom_pairwise hds 1 d.numRefills
      · rw [if_neg hm]
        exact List.Pairwise.nil
  · intro k hk1 hkn hm hle
    rw [rxFamily, if_pos hm]
    exact List.mem_cons_of_mem _ (refillsFrom_mem_of hk1 (by omega) hle)

/-- A concrete prescription draw: first condition, first medication,
written and filled on day 0, non-aberrant dosing, one refill. -/
def rxDraw0 : RxDraw := ⟨0, 0, 0, 0, false, 0, 0, 0, 0, 1⟩

/-- Witness for `C3_refill_family_dates`: for the Hypertension family of
`rxDraw0` (fill day 0, days-supply 30), refill 1 at day 30 is emitted. -/
theorem C3_refill_family_dates_witness :
    { mkProto 1 "PT00001" ["Hypertension"] rxDraw0 with
        fillDate := (mkProto 1 "PT00001" ["Hypertension"] rxDraw0).fillDate +
          (mkProto 1 "PT00001" ["Hypertension"] rxDraw0).daysSupply * 1,
        refillNumber := 1 } ∈
      rxFamily (mkProto 1 "PT00001" ["Hypertension"] rxDraw0) rxDraw0.numRefills :=
  (C3_refill_family_dates 1 "PT00001" ["Hypertension"] rxDraw0).2.2.2 1
    (le_refl 1) (of_decide_eq_true (by with_unfolding_all rfl))
    (of_decide_eq_true (by with_unfolding_all rfl))
    (of_decide_eq_true (by with_unfolding_all rfl))

/-- Every row of a family carries the family's `rx_number` (refills copy
the original's). -/
theorem rxFamily_rxNumber {proto : RxRow} {n : ℕ} {r : RxRow}
    (h : r ∈ rxFamily proto n) : r.rxNumber = proto.rxNumber := by
  rw [rxFamily] at h
  rcases List.mem_cons.mp h with h1 | h2
  · rw [h1]
  · by_cases hm : proto.condition ∈ MAINTENANCE_CONDITIONS
    · rw [if_pos hm] at h2
      obtain ⟨j, _, _, hj3, _⟩ := refillsFrom_mem h2
      rw [hj3]
    · rw [if_neg hm] at h2
      simp at h2

/-- Refill indices inside the refill loop are strictly increasing
(independently of `days_supply`). -/
theorem refillsFrom_refill_lt (proto : RxRow) (k rem : ℕ) :
    (refillsFrom proto k rem).Pairwise
      (fun a b => a.refillNumber < b.refillNumber) := by
  induction rem generalizing k with
  | zero => exact List.Pairwise.nil
  | succ n ih =>
    rw [refillsFrom]
    by_cases hd : proto.fillDate + proto.daysSupply * k > END_OFFSET
    · rw [if_pos hd]
      exact List.Pairwise.nil
    · rw [if_neg hd]
      refine List.pairwise_cons.mpr ⟨?_, ih (k + 1)⟩
      intro r hr
      obtain ⟨j, hj1, _, hj3, _⟩ := refillsFrom_mem hr
      subst hj3
      show k < j
      omega

/-- Within a family, refill numbers are pairwise strictly increasing
(the original is 0, refills start at 1). -/
theorem rxFamily_refill_lt {proto : RxRow} (h0 : proto.refillNumber = 0)
    (n : ℕ) :
    (rxFamily proto n).Pairwise (fun a b => a.refillNumber < b.refillNumber) := by
  rw [rxFamily]
  refine List.pairwise_cons.mpr ⟨?_, ?_⟩
  · intro r hr
    by_cases hm : proto.condition ∈ MAINTENANCE_CONDITIONS
    · rw [if_pos hm] at hr
      obtain ⟨j, hj1, _, hj3, _⟩ := refillsFrom_mem hr
      subst hj3
      show proto.refillNumber < j
      omega
    · rw [if_neg hm] at hr
      simp at hr
  · by_cases hm : proto.condition ∈ MAINTENANCE_CONDITIONS
    · rw [if_pos hm]
      exact refillsFrom_refill_lt proto 1 n
    · rw [if_neg hm]
      exact List.Pairwise.nil

/-- Rx-number bounds of the per-patient loop: the counter values used
lie in `[rx0, rx0 + number of draws)`. -/
theorem emitRxList_rx_bounds {pid : String} {conds : List String}
    {rx0 : ℕ} {ds : List RxDraw} {r : RxRow}
    (h : r ∈ emitRxList pid conds rx0 ds) :
    rx0 ≤ r.rxNumber ∧ r.rxNumber < rx0 + ds.length := by
  induction ds generalizing rx0 with
  | nil => simp [emitRxList] at h
  | cons d rest ih =>
    rw [emitRxList] at h
    rcases List.mem_append.mp h with h1 | h2
    · have := rxFamily_rxNumber h1
      rw [this]
      show rx0 ≤ (mkProto rx0 pid conds d).rxNumber ∧
        (mkProto rx0 pid conds d).rxNumber < rx0 + (d :: rest).length
      have hrx : (mkProto rx0 pid conds d).rxNumber = rx0 := rfl
      rw [hrx]
      simp
    · obtain ⟨hl, hu⟩ := ih h2
      refine ⟨by omega, ?_⟩
      simp only [List.length_cons]
      omega

/-- Distinctness within one patient: two rows differ in `rx_number`
unless they belong to the same family, in which case their refill
numbers are strictly ordered. -/
theorem emitRxList_pairwise (pid : String) (conds : List String)
    (rx0 : ℕ) (ds : List RxDraw) :
    (emitRxList pid conds rx0 ds).Pairwise
      (fun a b => a.rxNumber ≠ b.rxNumber ∨ a.refillNumber < b.refillNumber) := by
  induction ds generalizing rx0 with
  | nil => exact List.Pairwise.nil
  | cons d rest ih =>
    rw [emitRxList]
    rw [List.pairwise_append]
    refine ⟨?_, ih (rx0 + 1), ?_⟩
    · exact (rxFamily_refill_lt rfl d.numRefills).imp Or.inr
    · intro a ha b hb
      have hA := rxFamily_rxNumber ha
      have hB := (emitRxList_rx_bounds hb).1
      have hrx : (mkProto rx0 pid conds d).rxNumber = rx0 := rfl
      rw [hrx] at hA
      exact Or.inl (by omega)

/-- Rows of `generatePrescriptions` starting at counter `rx0` have
`rx_number ≥ rx0`. -/
theorem generatePrescriptions_rx_lb {rx0 : ℕ} {specs : List PrescInput}
    {r : RxRow} (h : r ∈ generatePrescriptions rx0 specs) :
    rx0 ≤ r.rxNumber := by
  induction specs generalizing rx0 with
  | nil => simp [generatePrescriptions] at h
  | cons p rest ih =>
    rw [generatePrescriptions] at h
    rcases List.mem_append.mp h with h1 | h2
    · rw [prescriptionsForPatient] at h1
      by_cases he : (parseConditions p.condStr).isEmpty
      · rw [if_pos he] at h1
        simp at h1
      · rw [if_neg he] at h1
        exact (emitRxList_rx_bounds h1).1
    · have := ih h2
      omega

/-- Per-patient upper bound: rows use counters below
`rx0 + numOriginals`. -/
theorem prescriptionsForPatient_rx_ub {rx0 : ℕ} {pid condStr : String}
    {ds : List RxDraw} {r : RxRow}
    (h : r ∈ prescriptionsForPatient rx0 pid condStr ds) :
    r.rxNumber < rx0 + numOriginals condStr ds := by
  rw [prescriptionsForPatient] at h
  rw [numOriginals]
  by_cases he : (parseConditions condStr).isEmpty
  · rw [if_pos he] at h
    simp at h
  · rw [if_neg he] at h
    rw [if_neg he]
    exact (emitRxList_rx_bounds h).2

/-- Distinctness across the whole prescriptions table: two rows differ
in `rx_number` or are strictly ordered in refill number. -/
theorem generatePrescriptions_pairwise (rx0 : ℕ) (specs : List PrescInput) :
    (generatePrescriptions rx0 specs).Pairwise
      (fun a b => a.rxNumber ≠ b.rxNumber ∨ a.refillNumber < b.refillNumber) := by
  induction specs generalizing rx0 with
  | nil => exact List.Pairwise.nil
  | cons p rest ih =>
    rw [generatePrescriptions]
    rw [List.pairwise_append]
    refine ⟨?_, ih _, ?_⟩
    · rw [prescriptionsForPatient]
      by_cases he : (parseConditions p.condStr).isEmpty
      · rw [if_pos he]
        exact List.Pairwise.nil
      · rw [if_neg he]
        exact emitRxList_pairwise p.pid (parseConditions p.condStr) rx0 p.draws
    · intro a ha b hb
      have hA := prescriptionsForPatient_rx_ub ha
      have hB := generatePrescriptions_rx_lb hb
      exact Or.inl (by omega)

/-- The one-patient, one-prescription, one-refill input used to refute
the uniqueness claim. -/
def prescInput0 : PrescInput := ⟨"PT00001", "Hypertension", [rxDraw0]⟩

/-- C5 (counterexample): the claim that every emitted prescription row
carries a distinct `rx_number` is false — a single Hypertension
prescription with one refill produces two rows (refill 0 and refill 1)
sharing the same `rx_number`, because the refill row is a copy of the
original and the counter advances only per original fill. -/
theorem C5_rx_number_not_unique :
    ¬ (generatePrescriptions 1 [prescInput0]).Pairwise
        (fun a b => a.rxNumber ≠ b.rxNumber) :=
  of_decide_eq_true (by with_unfolding_all rfl)

/-- C5 (amended): `rx_number` is unique across original-fill rows
(`refill_number = 0`), guaranteed by the monotonically increasing
counter; refill rows copy their family's `rx_number`, so across all
rows only the pair `(rx_number, refill_number)` is distinguishing: any
two distinct rows differ in `rx_number` or in `refill_number`. -/
theorem C5_rx_number_unique_per_original (rx0 : ℕ) (specs : List PrescInput) :
    ((generatePrescriptions rx0 specs).filter
        (fun r => r.refillNumber == 0)).Pairwise
      (fun a b => a.rxNumber ≠ b.rxNumber) ∧
    (generatePrescriptions rx0 specs).Pairwise
      (fun a b => a.rxNumber ≠ b.rxNumber ∨ a.refillNumber ≠ b.refillNumber) := by
  have hpw := generatePrescriptions_pairwise rx0 specs
  constructor
  · refine List.Pairwise.imp_of_mem ?_ (hpw.filter _)
    intro a b ha hb hab
    have ha0 : a.refillNumber = 0 := by
      have := (List.mem_filter.mp ha).2
      exact eq_of_beq this
    have hb0 : b.refillNumber = 0 := by
      have := (List.mem_filter.mp hb).2
      exact eq_of_beq this
    rcases hab with h | h
    · exact h
    · omega
  · exact hpw.imp (fun h => h.imp id Nat.ne_of_lt)

/-! ## Adjudication transactions
(`generate_pharmacy_data.py`, `REJECTION_CODES` and
`generate_adjudication_transactions`). -/

/-- `REJECTION_CODES` from `generate_pharmacy_data.py` (codes are unique,
so choosing a key uniformly and reading its value is the same as
choosing an entry uniformly). -/
def REJECTION_CODES : List (String × String) :=
  [("M1", "Prior Authorization Required"),
   ("M2", "Step Therapy Required"),
   ("75", "Prior Authorization Required"),
   ("76", "Plan Limitations Exceeded"),
   ("79", "Refill Too Soon"),
   ("70", "Product Not Covered"),
   ("NN", "DUR Reject - Duplicate Therapy"),
   ("88", "DUR Reject - Drug-Drug Interaction"),
   ("MR", "Max Quantity Exceeded")]

/-- Zero-pad a natural number to seven digits (`"%07d"` for values below
`10^7`). -/
def pad7 (n : ℕ) : String :=
  let s := toString n
  String.mk (List.replicate (7 - s.length) '0') ++ s

/-- The transaction id
`f"TXN{hash(rx['rx_number'] + rx['fill_date']) % 10000000:07d}"`.
Python's built-in `hash` on `str` is salted per process
(`PYTHONHASHSEED`, randomized by default), so the hash function is an
explicit parameter here: nothing in the source pins it down. -/
def transactionId (pyHash : String → ℤ) (rxNumber fillDate : String) : String :=
  "TXN" ++ pad7 ((pyHash (rxNumber ++ fillDate)).emod 10000000).toNat

/-- C2: the transaction id is not a function of `(rx_number, fill_date)`
alone — it also depends on the process hash salt.  Two admissible hash
functions give different ids for the same prescription fill, refuting
run-to-run reproducibility of the identifiers. -/
theorem C2_transaction_id_depends_on_hash_salt :
    transactionId (fun _ => 0) "RX00000001" "2024-01-05" ≠
      transactionId (fun _ => 1) "RX00000001" "2024-01-05" :=
  of_decide_eq_true (by with_unfolding_all rfl)

/-- The outcome fields of one adjudication transaction. -/
structure AdjOutcome where
  paidAmount : ℚ
  status : String
  rejectCode : Option String
  rejectMessage : Option String
deriving DecidableEq, Repr

/-- The random draws consumed per transaction. -/
structure AdjDraw where
  rejectU : ℚ    -- random.random() < 0.15
  rejectIdx : ℕ  -- random.choice over the rejection codes
  awpU : ℚ       -- uniform(50, 800) average wholesale price
  discU : ℚ      -- uniform(0.70, 0.95) discount factor
  submitU : ℚ    -- uniform(50, 800) submitted amount (independent draw)

/-- The status / paid-amount / rejection fields of
`generate_adjudication_transactions`: 15% rejections with a catalog
code, its mapped message and zero paid amount; approvals pay a
discounted fraction of a fresh AWP draw and carry no rejection
fields. -/
def adjudicationOutcome (a : AdjDraw) : AdjOutcome :=
  if a.rejectU < 0.15 then
    let p := REJECTION_CODES.getD (a.rejectIdx % REJECTION_CODES.length) ("", "")
    { paidAmount := 0, status := "Rejected",
      rejectCode := some p.1, rejectMessage := some p.2 }
  else
    { paidAmount := round2 (round2 (uniformAt 50 800 a.awpU) *
        uniformAt 0.70 0.95 a.discU),
      status := "Approved", rejectCode := none, rejectMessage := none }

/-- C4: rejected transactions have zero paid amount and carry a
rejection code from the catalog together with its mapped description;
approved transactions carry neither code nor message. -/
theorem C4_rejection_fields (a : AdjDraw) :
    ((adjudicationOutcome a).status = "Rejected" →
      (adjudicationOutcome a).paidAmount = 0 ∧
      ∃ p, p ∈ REJECTION_CODES ∧
        (adjudicationOutcome a).rejectCode = some p.1 ∧
        (adjudicationOutcome a).rejectMessage = some p.2) ∧
    ((adjudicationOutcome a).status = "Approved" →
      (adjudicationOutcome a).rejectCode = none ∧
      (adjudicationOutcome a).rejectMessage = none) := by
  by_cases h : a.rejectU < 0.15
  · rw [adjudicationOutcome, if_pos h]
    constructor
    · intro _
      refine ⟨rfl, REJECTION_CODES.getD (a.rejectIdx % REJECTION_CODES.length) ("", ""), ?_, rfl, rfl⟩
      have hlen : a.rejectIdx % REJECTION_CODES.length < REJECTION_CODES.length :=
        Nat.mod_lt _ (by decide)
      rw [List.getD_eq_getElem?_getD, List.getElem?_eq_getElem hlen]
      exact List.getElem_mem _
    · intro hcon
      have hss : ("Rejected" : String) = "Approved" := hcon
      exact absurd hss (by decide)
  · rw [adjudicationOutcome, if_neg h]
    constructor
    · intro hcon
      have hss : ("Approved" : String) = "Rejected" := hcon
      exact absurd hss (by decide)
    · intro _
      exact ⟨rfl, rfl⟩

/-- Witness for `C4_rejection_fields`: the all-zero draw is rejected
(`0 < 0.15`) and exhibits catalog code and message with zero paid
amount. -/
theorem C4_rejection_fields_witness :
    (adjudicationOutcome ⟨0, 0, 0, 0, 0⟩).paidAmount = 0 ∧
    ∃ p, p ∈ REJECTION_CODES ∧
      (adjudicationOutcome ⟨0, 0, 0, 0, 0⟩).rejectCode = some p.1 ∧
      (adjudicationOutcome ⟨0, 0, 0, 0, 0⟩).rejectMessage = some p.2 :=
  (C4_rejection_fields ⟨0, 0, 0, 0, 0⟩).1 (of_decide_eq_true (by with_unfolding_all rfl))

/-! ## Insurance profiles and the adjudication pipeline
(`generate_pharmacy_data.py`, `generate_insurance_profiles` and
`generate_adjudication_transactions`). -/

/-- Carrier names of `INSURANCE_CARRIERS` (BIN/PCN/group details, which
no claim mentions, are omitted from the projection). -/
def INSURANCE_CARRIERS : List String :=
  ["Express Scripts", "CVS Caremark", "OptumRx", "Humana", "Aetna",
   "Blue Cross Blue Shield", "Cigna", "United Healthcare",
   "Medicare Part D", "Medicaid"]

/-- One row of the insurance table (projected to the fields the claims
mention). -/
structure InsRecord where
  patientId : String
  insuranceRank : String
  carrierName : String
deriving DecidableEq, Repr

/-- The random draws consumed per patient by
`generate_insurance_profiles`. -/
structure InsDraw where
  numPlansU : ℕ    -- np.random.choice([1,2,3], p=[0.70,0.25,0.05])
  carrierU : ℕ     -- random.choice(INSURANCE_CARRIERS)
  medicaidU : ℚ    -- random.random() < 0.15
  secCarrierU : ℕ  -- random.choice over the remaining carriers

/-- Primary carrier selection: a uniform choice, overridden to Medicare
for patients 65+ and, for some younger patients, to Medicaid. -/
def primaryCarrier (age : ℕ) (du : InsDraw) : String :=
  if 65 ≤ age then "Medicare Part D"
  else if du.medicaidU < 0.15 then "Medicaid"
  else INSURANCE_CARRIERS.getD (du.carrierU % INSURANCE_CARRIERS.length) ""

/-- The per-patient body of `generate_insurance_profiles`: one Primary
record is always appended; a Secondary record follows when the drawn
plan count is at least 2. -/
def generateInsuranceForPatient (pid : String) (age : ℕ) (du : InsDraw) :
    List InsRecord :=
  let numPlans := 1 + du.numPlansU % 3
  let carrier := primaryCarrier age du
  let secondaries :=
    if 2 ≤ numPlans then
      let others := INSURANCE_CARRIERS.filter (fun c => c ≠ carrier)
      [{ patientId := pid, insuranceRank := "Secondary",
         carrierName := others.getD (du.secCarrierU % others.length) "" }]
    else []
  { patientId := pid, insuranceRank := "Primary", carrierName := carrier } :: secondaries

/-- A roster entry as consumed by the insurance generator. -/
structure PatientRec where
  pid : String
  age : ℕ
deriving DecidableEq, Repr

/-- `generate_insurance_profiles(patients_df)`, with per-patient draws
indexed by roster position. -/
def generateInsuranceProfiles (du : ℕ → InsDraw) : ℕ → List PatientRec → List InsRecord
  | _, [] => []
  | i, p :: ps =>
    generateInsuranceForPatient p.pid p.age (du i) ++
      generateInsuranceProfiles du (i + 1) ps

/-- One transaction row (projected to the fields the claims mention). -/
structure Txn where
  rxNumber : ℕ
  patientId : String
  outcome : AdjOutcome
deriving DecidableEq, Repr

/-- `generate_adjudication_transactions`: per prescription row, look up
the patient's Primary insurance; if the lookup is empty the fill is
silently skipped, otherwise exactly one transaction is emitted. -/
def generateAdjudications (ins : List InsRecord) (ad : ℕ → AdjDraw) :
    ℕ → List RxRow → List Txn
  | _, [] => []
  | k, rx :: rest =>
    (if ((ins.filter (fun r => r.patientId == rx.patientId &&
            r.insuranceRank == "Primary")).isEmpty) then []
     else [{ rxNumber := rx.rxNumber, patientId := rx.patientId,
             outcome := adjudicationOutcome (ad k) }]) ++
      generateAdjudications ins ad (k + 1) rest

/-- Every record the per-patient insurance body emits belongs to that
patient. -/
theorem generateInsuranceForPatient_pid {pid : String} {age : ℕ}
    {du : InsDraw} {r : InsRecord}
    (h : r ∈ generateInsuranceForPatient pid age du) : r.patientId = pid := by
  rw [generateInsuranceForPatient] at h
  rcases List.mem_cons.mp h with h1 | h2
  · rw [h1]
  · by_cases hn : 2 ≤ 1 + du.numPlansU % 3
    · rw [if_pos hn] at h2
      rw [List.mem_singleton] at h2
      rw [h2]
    · rw [if_neg hn] at h2
      simp at h2

/-- The per-patient insurance body emits exactly one Primary record. -/
theorem generateInsuranceForPatient_one_primary (pid : String) (age : ℕ)
    (du : InsDraw) :
    ((generateInsuranceForPatient pid age du).filter
        (fun r => r.insuranceRank == "Primary")).length = 1 := by
  rw [generateInsuranceForPatient]
  by_cases hn : 2 ≤ 1 + du.numPlansU % 3
  · rw [if_pos hn]
    rfl
  · rw [if_neg hn]
    rfl

/-- Every record of the insurance table belongs to some roster
patient. -/
theorem generateInsuranceProfiles_pid {du : ℕ → InsDraw} {i : ℕ}
    {roster : List PatientRec} {r : InsRecord}
    (h : r ∈ generateInsuranceProfiles du i roster) :
    r.patientId ∈ roster.map (fun p => p.pid) := by
  induction roster generalizing i with
  | nil => simp [generateInsuranceProfiles] at h
  | cons p ps ih =>
    rw [generateInsuranceProfiles] at h
    rcases List.mem_append.mp h with h1 | h2
    · rw [List.map_cons, generateInsuranceForPatient_pid h1]
      exact List.mem_cons_self _ _
    · rw [List.map_cons]
      exact List.mem_cons_of_mem _ (ih h2)

/-- The insurance table holds a Primary record for every roster
patient. -/
theorem generateInsuranceProfiles_has_primary {du : ℕ → InsDraw} {i : ℕ}
    {roster : List PatientRec} {p : PatientRec} (hp : p ∈ roster) :
    ∃ r, r ∈ generateInsuranceProfiles du i roster ∧
      r.patientId = p.pid ∧ r.insuranceRank = "Primary" := by
  induction roster generalizing i with
  | nil => simp at hp
  | cons q qs ih =>
    rw [generateInsuranceProfiles]
    rcases List.mem_cons.mp hp with h1 | h2
    · subst h1
      refine ⟨{ patientId := p.pid, insuranceRank := "Primary",
                carrierName := primaryCarrier p.age (du i) }, ?_, rfl, rfl⟩
      apply List.mem_append_left
      rw [generateInsuranceForPatient]
      exact List.mem_cons_self _ _
    · obtain ⟨r, hr1, hr2, hr3⟩ := ih (i := i + 1) h2
      exact ⟨r, List.mem_append_right _ hr1, hr2, hr3⟩

/-- Every row of a family belongs to the family's patient. -/
theorem rxFamily_patientId {proto : RxRow} {n : ℕ} {r : RxRow}
    (h : r ∈ rxFamily proto n) : r.patientId = proto.patientId := by
  rw [rxFamily] at h
  rcases List.mem_cons.mp h with h1 | h2
  · rw [h1]
  · by_cases hm : proto.condition ∈ MAINTENANCE_CONDITIONS
    · rw [if_pos hm] at h2
      obtain ⟨j, _, _, hj3, _⟩ := refillsFrom_mem h2
      rw [hj3]
    · rw [if_neg hm] at h2
      simp at h2

/-- Rows of the per-patient loop belong to that patient. -/
theorem emitRxList_patientId {pid : String} {conds : List String}
    {rx0 : ℕ} {ds : List RxDraw} {r : RxRow}
    (h : r ∈ emitRxList pid conds rx0 ds) : r.patientId = pid := by
  induction ds generalizing rx0 with
  | nil => simp [emitRxList] at h
  | cons d rest ih =>
    rw [emitRxList] at h
    rcases List.mem_append.mp h with h1 | h2
    · rw [rxFamily_patientId h1]
      rfl
    · exact ih h2

/-- Every prescription row's patient id comes from the input roster. -/
theorem generatePrescriptions_patientId {rx0 : ℕ} {specs : List PrescInput}
    {r : RxRow} (h : r ∈ generatePrescriptions rx0 specs) :
    r.patientId ∈ specs.map (fun p => p.pid) := by
  induction specs generalizing rx0 with
  | nil => simp [generatePrescriptions] at h
  | cons p rest ih =>
    rw [generatePrescriptions] at h
    rcases List.mem_append.mp h with h1 | h2
    · rw [prescriptionsForPatient] at h1
      by_cases he : (parseConditions p.condStr).isEmpty
      · rw [if_pos he] at h1
        simp at h1
      · rw [if_neg he] at h1
        rw [List.map_cons, emitRxList_patientId h1]
        exact List.mem_cons_self _ _
    · exact List.mem_cons_of_mem _ (ih h2)

/-- With distinct roster patient ids, the insurance table holds exactly
one Primary record per patient. -/
theorem generateInsuranceProfiles_one_primary {du : ℕ → InsDraw} {i : ℕ}
    {roster : List PatientRec} {p : PatientRec}
    (hnd : (roster.map (fun q => q.pid)).Nodup) (hp : p ∈ roster) :
    ((generateInsuranceProfiles du i roster).filter
        (fun r => r.patientId == p.pid && r.insuranceRank == "Primary")).length = 1 := by
  induction roster generalizing i with
  | nil => simp at hp
  | cons q qs ih =>
    rw [List.map_cons, List.nodup_cons] at hnd
    rw [generateInsuranceProfiles, List.filter_append, List.length_append]
    rcases List.mem_cons.mp hp with h1 | h2
    · subst h1
      have hhead : (generateInsuranceForPatient p.pid p.age (du i)).filter
          (fun r => r.patientId == p.pid && r.insuranceRank == "Primary") =
          (generateInsuranceForPatient p.pid p.age (du i)).filter
          (fun r => r.insuranceRank == "Primary") := by
        apply List.filter_congr
        intro r hr
        rw [generateInsuranceForPatient_pid hr]
        simp
      have htail : (generateInsuranceProfiles du (i + 1) qs).filter
          (fun r => r.patientId == p.pid && r.insuranceRank == "Primary") = [] := by
        rw [List.filter_eq_nil_iff]
        intro r hr
        have hmem := generateInsuranceProfiles_pid hr
        have hne : r.patientId ≠ p.pid := fun hcon => hnd.1 (hcon ▸ hmem)
        simp [hne]
      rw [hhead, htail, generateInsuranceForPatient_one_primary]
      rfl
    · have hne : q.pid ≠ p.pid := by
        intro hcon
        exact hnd.1 (hcon ▸ List.mem_map_of_mem (fun x => x.pid) h2)
      have hhead : (generateInsuranceForPatient q.pid q.age (du i)).filter
          (fun r => r.patientId == p.pid && r.insuranceRank == "Primary") = [] := by
        rw [List.filter_eq_nil_iff]
        intro r hr
        rw [generateInsuranceForPatient_pid hr]
        simp [hne]
      rw [hhead, ih hnd.2 h2]
      rfl

/-- When every prescription's patient has a Primary insurance record in
the table, the adjudication generator emits exactly one transaction per
prescription row (the no-Primary omission branch never fires). -/
theorem generateAdjudications_length {ins : List InsRecord} {ad : ℕ → AdjDraw}
    {k : ℕ} {rxs : List RxRow}
    (hins : ∀ rx ∈ rxs, ∃ r, r ∈ ins ∧ r.patientId = rx.patientId ∧
      r.insuranceRank = "Primary") :
    (generateAdjudications ins ad k rxs).length = rxs.length := by
  induction rxs generalizing k with
  | nil => rfl
  | cons rx rest ih =>
    rw [generateAdjudications, List.length_append]
    obtain ⟨r, hr, h1, h2⟩ := hins rx (List.mem_cons_self _ _)
    have hpred : (r.patientId == rx.patientId && r.insuranceRank == "Primary") = true := by
      rw [h1, h2]
      simp
    have hmem : r ∈ ins.filter (fun s => s.patientId == rx.patientId &&
        s.insuranceRank == "Primary") := List.mem_filter.mpr ⟨hr, hpred⟩
    have hne : ins.filter (fun s => s.patientId == rx.patientId &&
        s.insuranceRank == "Primary") ≠ [] := List.ne_nil_of_mem hmem
    rw [if_neg (fun hcon => hne (List.isEmpty_iff.mp hcon))]
    rw [ih (fun q hq => hins q (List.mem_cons_of_mem _ hq))]
    show 1 + rest.length = rest.length + 1
    omega

/-- C10: (a) with distinct roster pids, `generate_insurance_profiles`
emits exactly one Primary record per roster patient regardless of
draws; (b) every prescription row's patient id comes from the
prescription-input roster; (c) consequently, when the prescriptions
were generated for (a subset of) the insured roster, the adjudication
generator's no-Primary omission branch is unreachable and exactly one
transaction is emitted per prescription row. -/
theorem C10_one_primary_one_txn (roster : List PatientRec) (du : ℕ → InsDraw)
    (i0 : ℕ) (rxs : List RxRow) (ad : ℕ → AdjDraw) (k : ℕ)
    (hnd : (roster.map (fun q => q.pid)).Nodup)
    (hcover : ∀ rx ∈ rxs, rx.patientId ∈ roster.map (fun q => q.pid)) :
    (∀ p ∈ roster,
      ((generateInsuranceProfiles du i0 roster).filter
          (fun r => r.patientId == p.pid && r.insuranceRank == "Primary")).length = 1) ∧
    (generateAdjudications (generateInsuranceProfiles du i0 roster) ad k rxs).length
      = rxs.length := by
  constructor
  · intro p hp
    exact generateInsuranceProfiles_one_primary hnd hp
  · apply generateAdjudications_length
    intro rx hrx
    obtain ⟨p, hp, hpid⟩ := List.mem_map.mp (hcover rx hrx)
    obtain ⟨r, hr1, hr2, hr3⟩ :=
      @generateInsuranceProfiles_has_primary du i0 roster p hp
    exact ⟨r, hr1, by rw [hr2, hpid], hr3⟩

/-- Witness for `C10_one_primary_one_txn`: a one-patient roster with one
prescription row yields one Primary record and one transaction. -/
theorem C10_one_primary_one_txn_witness :
    (∀ p ∈ [(⟨"PT00001", 70⟩ : PatientRec)],
      ((generateInsuranceProfiles (fun _ => ⟨0, 0, 1, 0⟩) 0 [⟨"PT00001", 70⟩]).filter
          (fun r => r.patientId == p.pid && r.insuranceRank == "Primary")).length = 1) ∧
    (generateAdjudications
        (generateInsuranceProfiles (fun _ => ⟨0, 0, 1, 0⟩) 0 [⟨"PT00001", 70⟩])
        (fun _ => ⟨0, 0, 0, 0, 0⟩) 0
        [mkProto 1 "PT00001" ["Hypertension"] rxDraw0]).length =
      [mkProto 1 "PT00001" ["Hypertension"] rxDraw0].length :=
  C10_one_primary_one_txn [⟨"PT00001", 70⟩] (fun _ => ⟨0, 0, 1, 0⟩) 0
    [mkProto 1 "PT00001" ["Hypertension"] rxDraw0] (fun _ => ⟨0, 0, 0, 0, 0⟩) 0
    (of_decide_eq_true (by with_unfolding_all rfl))
    (of_decide_eq_true (by with_unfolding_all rfl))

/-! ## Immunization records
(`generate_ehr_data.py`, `IMMUNIZATIONS` and `generate_immunizations`). -/

/-- The childhood vaccine schedule names of `IMMUNIZATIONS['childhood']`. -/
def CHILDHOOD_VACCINES : List String :=
  ["DTaP", "Hib", "Hepatitis B", "MMR", "Varicella", "Polio"]

/-- One immunization row (projected to the fields the claims mention;
dates are day offsets from `START_DATE`, possibly negative before
clamping, hence `ℤ`). -/
structure ImmRow where
  patientId : String
  vaccineName : String
  adminDate : ℤ
  doseNumber : ℕ
deriving DecidableEq, Repr

/-- The random draws consumed per patient by `generate_immunizations`.
`nowOff` is `datetime.now()` as a day offset from `START_DATE` — the
source consults the wall clock here. -/
structure ImmDraws where
  childU : ℚ              -- random() < 0.80 childhood-series gate
  childDateU : String → ℕ -- randint(90, 730) per childhood vaccine
  childLateU : String → ℕ -- randint(0, 30) clamp offset
  fluU : ℚ                -- random() < 0.45 influenza gate
  fluMonthU : ℕ → ℕ       -- randint(9, 11) per year
  fluDayU : ℕ → ℕ         -- randint(1, 28) per year
  tdapU : ℚ               -- random() < 0.26 Tdap gate
  tdapBackU : ℕ           -- randint(0, 3650) days before now
  shinglesU : ℚ           -- random() < 0.33 shingles gate
  shinglesDateU : ℕ       -- randint(0, 730)
  pneumoU : ℚ             -- random() < 0.64 pneumococcal gate
  pneumoDateU : ℕ         -- randint(0, 730)
  covidU : ℚ              -- random() < 0.70 COVID gate
  covidDateU : ℕ          -- randint(0, 730)
  covidDoseU : ℕ          -- randint(1, 3)
  nowOff : ℤ              -- datetime.now() as an offset from START_DATE

/-- Day-of-year offset of the first day of month `m` (1-based). -/
def monthStartOffset (leap : Bool) (m : ℕ) : ℕ :=
  ((if leap then [31, 29, 31, 30, 31, 30, 31, 31, 30, 31, 30, 31]
    else [31, 28, 31, 30, 31, 30, 31, 31, 30, 31, 30, 31]).take (m - 1)).sum

/-- Childhood series: an 80% gate over the whole schedule; each vaccine
gets a historically backdated date, clamped forward into the simulation
window when it falls before `START_DATE`. -/
def childhoodSegment (pid : String) (age : ℕ) (d : ImmDraws) : List ImmRow :=
  if d.childU < 0.80 then
    CHILDHOOD_VACCINES.map fun v =>
      let raw : ℤ := d.nowOff - (age * 365 : ℕ) + ((90 + d.childDateU v % 641 : ℕ) : ℤ)
      { patientId := pid, vaccineName := v,
        adminDate := if raw < 0 then ((d.childLateU v % 31 : ℕ) : ℤ) else raw,
        doseNumber := 1 }
  else []

/-- Influenza: a 45% gate, then one shot per year 2024/2025 in
September–November, emitted only when the date lies inside the
simulation window. -/
def fluSegment (pid : String) (d : ImmDraws) : List ImmRow :=
  if d.fluU < 0.45 then
    [2024, 2025].flatMap fun year =>
      let leap := year == 2024
      let yearStart := if year = 2024 then 0 else 366
      let m := 9 + d.fluMonthU year % 3
      let dayOff := d.fluDayU year % 28
      let off : ℕ := yearStart + monthStartOffset leap m + dayOff
      if off ≤ END_OFFSET then
        [{ patientId := pid, vaccineName := "Influenza",
           adminDate := (off : ℤ), doseNumber := 1 }]
      else []
  else []

/-- Tdap: a 26% gate; the date is up to ten years before `now` and the
record is dropped (not clamped) when it falls outside the window. -/
def tdapSegment (pid : String) (d : ImmDraws) : List ImmRow :=
  if d.tdapU < 0.26 then
    if 0 ≤ d.nowOff - (d.tdapBackU % 3651 : ℕ) ∧
        d.nowOff - (d.tdapBackU % 3651 : ℕ) ≤ (END_OFFSET : ℤ) then
      [{ patientId := pid, vaccineName := "Td/Tdap",
         adminDate := d.nowOff - (d.tdapBackU % 3651 : ℕ), doseNumber := 1 }]
    else []
  else []

/-- Shingles: gated by `age >= 50` and a 33% coverage draw. -/
def shinglesSegment (pid : String) (age : ℕ) (d : ImmDraws) : List ImmRow :=
  if 50 ≤ age ∧ d.shinglesU < 0.33 then
    [{ patientId := pid, vaccineName := "Shingles (Shingrix)",
       adminDate := ((d.shinglesDateU % 731 : ℕ) : ℤ), doseNumber := 1 }]
  else []

/-- Pneumococcal: gated by `age >= 65` and a 64% coverage draw. -/
def pneumoSegment (pid : String) (age : ℕ) (d : ImmDraws) : List ImmRow :=
  if 65 ≤ age ∧ d.pneumoU < 0.64 then
    [{ patientId := pid, vaccineName := "Pneumococcal (PPSV23)",
       adminDate := ((d.pneumoDateU % 731 : ℕ) : ℤ), doseNumber := 1 }]
  else []

/-- COVID-19: a 70% coverage draw, 1–3 doses recorded. -/
def covidSegment (pid : String) (d : ImmDraws) : List ImmRow :=
  if d.covidU < 0.70 then
    [{ patientId := pid, vaccineName := "COVID-19",
       adminDate := ((d.covidDateU % 731 : ℕ) : ℤ),
       doseNumber := 1 + d.covidDoseU % 3 }]
  else []

/-- `generate_immunizations(patient_id, age)`: the six coverage blocks
in source order. -/
def generateImmunizations (pid : String) (age : ℕ) (d : ImmDraws) : List ImmRow :=
  childhoodSegment pid age d ++ fluSegment pid d ++ tdapSegment pid d ++
    shinglesSegment pid age d ++ pneumoSegment pid age d ++ covidSegment pid d

/-- Vaccine names emitted by the childhood block. -/
theorem childhoodSegment_names {pid : String} {age : ℕ} {d : ImmDraws}
    {r : ImmRow} (h : r ∈ childhoodSegment pid age d) :
    r.vaccineName ∈ CHILDHOOD_VACCINES := by
  rw [childhoodSegment] at h
  by_cases hg : d.childU < 0.80
  · rw [if_pos hg] at h
    obtain ⟨v, hv, hr⟩ := List.mem_map.mp h
    rw [← hr]
    exact hv
  · rw [if_neg hg] at h
    simp at h

/-- Vaccine names emitted by the influenza block. -/
theorem fluSegment_names {pid : String} {d : ImmDraws} {r : ImmRow}
    (h : r ∈ fluSegment pid d) : r.vaccineName = "Influenza" := by
  rw [fluSegment] at h
  by_cases hg : d.fluU < 0.45
  · rw [if_pos hg] at h
    obtain ⟨year, _, hr⟩ := List.mem_flatMap.mp h
    by_cases hoff : (if year = 2024 then 0 else 366) +
        monthStartOffset (year == 2024) (9 + d.fluMonthU year % 3) +
        d.fluDayU year % 28 ≤ END_OFFSET
    · rw [if_pos hoff] at hr
      rw [List.mem_singleton] at hr
      rw [hr]
    · rw [if_neg hoff] at hr
      simp at hr
  · rw [if_neg hg] at h
    simp at h

/-- Vaccine names emitted by the Tdap block. -/
theorem tdapSegment_names {pid : String} {d : ImmDraws} {r : ImmRow}
    (h : r ∈ tdapSegment pid d) : r.vaccineName = "Td/Tdap" := by
  rw [tdapSegment] at h
  by_cases hg : d.tdapU < 0.26
  · rw [if_pos hg] at h
    by_cases hw : 0 ≤ d.nowOff - (d.tdapBackU % 3651 : ℕ) ∧
        d.nowOff - (d.tdapBackU % 3651 : ℕ) ≤ (END_OFFSET : ℤ)
    · rw [if_pos hw] at h
      rw [List.mem_singleton] at h
      rw [h]
    · rw [if_neg hw] at h
      simp at h
  · rw [if_neg hg] at h
    simp at h

/-- The shingles block is empty below age 50, and otherwise emits only
the Shingrix record. -/
theorem shinglesSegment_cases {pid : String} {age : ℕ} {d : ImmDraws}
    {r : ImmRow} (h : r ∈ shinglesSegment pid age d) :
    50 ≤ age ∧ r.vaccineName = "Shingles (Shingrix)" := by
  rw [shinglesSegment] at h
  by_cases hg : 50 ≤ age ∧ d.shinglesU < 0.33
  · rw [if_pos hg] at h
    rw [List.mem_singleton] at h
    exact ⟨hg.1, by rw [h]⟩
  · rw [if_neg hg] at h
    simp at h

/-- The pneumococcal block is empty below age 65, and otherwise emits
only the PPSV23 record. -/
theorem pneumoSegment_cases {pid : String} {age : ℕ} {d : ImmDraws}
    {r : ImmRow} (h : r ∈ pneumoSegment pid age d) :
    65 ≤ age ∧ r.vaccineName = "Pneumococcal (PPSV23)" := by
  rw [pneumoSegment] at h
  by_cases hg : 65 ≤ age ∧ d.pneumoU < 0.64
  · rw [if_pos hg] at h
    rw [List.mem_singleton] at h
    exact ⟨hg.1, by rw [h]⟩
  · rw [if_neg hg] at h
    simp at h

/-- Vaccine names emitted by the COVID block. -/
theorem covidSegment_names {pid : String} {d : ImmDraws} {r : ImmRow}
    (h : r ∈ covidSegment pid d) : r.vaccineName = "COVID-19" := by
  rw [covidSegment] at h
  by_cases hg : d.covidU < 0.70
  · rw [if_pos hg] at h
    rw [List.mem_singleton] at h
    rw [h]
  · rw [if_neg hg] at h
    simp at h

/-- C9: `generate_immunizations` never emits a pneumococcal (PPSV23)
record for a patient under 65, and never a shingles record for a
patient under 50, for every random draw. -/
theorem C9_age_gates (pid : String) (age : ℕ) (d : ImmDraws) :
    (age < 65 → ∀ r ∈ generateImmunizations pid age d,
      r.vaccineName ≠ "Pneumococcal (PPSV23)") ∧
    (age < 50 → ∀ r ∈ generateImmunizations pid age d,
      r.vaccineName ≠ "Shingles (Shingrix)") := by
  have hsplit : ∀ r ∈ generateImmunizations pid age d,
      r ∈ childhoodSegment pid age d ∨ r ∈ fluSegment pid d ∨
      r ∈ tdapSegment pid d ∨ r ∈ shinglesSegment pid age d ∨
      r ∈ pneumoSegment pid age d ∨ r ∈ covidSegment pid d := by
    intro r hr
    rw [generateImmunizations] at hr
    simp only [List.mem_append] at hr
    tauto
  constructor
  · intro hage r hr
    rcases hsplit r hr with h | h | h | h | h | h
    · have := childhoodSegment_names h
      revert this
      rw [CHILDHOOD_VACCINES]
      intro hmem hcon
      rw [hcon] at hmem
      simp at hmem
    · rw [fluSegment_names h]
      decide
    · rw [tdapSegment_names h]
      decide
    · rw [(shinglesSegment_cases h).2]
      decide
    · exact absurd (pneumoSegment_cases h).1 (by omega)
    · rw [covidSegment_names h]
      decide
  · intro hage r hr
    rcases hsplit r hr with h | h | h | h | h | h
    · have := childhoodSegment_names h
      revert this
      rw [CHILDHOOD_VACCINES]
      intro hmem hcon
      rw [hcon] at hmem
      simp at hmem
    · rw [fluSegment_names h]
      decide
    · rw [tdapSegment_names h]
      decide
    · exact absurd (shinglesSegment_cases h).1 (by omega)
    · exact absurd (pneumoSegment_cases h).1 (by omega)
    · rw [covidSegment_names h]
      decide

/-- A draw record under which only the COVID block fires (all other
gates fail, `0 < 0.70` succeeds). -/
def immDrawsCovidOnly : ImmDraws :=
  { childU := 1, childDateU := fun _ => 0, childLateU := fun _ => 0,
    fluU := 1, fluMonthU := fun _ => 0, fluDayU := fun _ => 0,
    tdapU := 1, tdapBackU := 0, shinglesU := 1, shinglesDateU := 0,
    pneumoU := 1, pneumoDateU := 0, covidU := 0, covidDateU := 0,
    covidDoseU := 0, nowOff := 700 }

/-- Witness for `C9_age_gates`: for a 40-year-old the emitted COVID-19
row is neither a pneumococcal nor a shingles record. -/
theorem C9_age_gates_witness :
    ((generateImmunizations "PT00001" 40 immDrawsCovidOnly).getD 0
        ⟨"PT00001", "COVID-19", 0, 1⟩).vaccineName ≠ "Pneumococcal (PPSV23)" ∧
    ((generateImmunizations "PT00001" 40 immDrawsCovidOnly).getD 0
        ⟨"PT00001", "COVID-19", 0, 1⟩).vaccineName ≠ "Shingles (Shingrix)" :=
  ⟨(C9_age_gates "PT00001" 40 immDrawsCovidOnly).1
      (of_decide_eq_true (by with_unfolding_all rfl)) _
      (of_decide_eq_true (by with_unfolding_all rfl)),
   (C9_age_gates "PT00001" 40 immDrawsCovidOnly).2
      (of_decide_eq_true (by with_unfolding_all rfl)) _
      (of_decide_eq_true (by with_unfolding_all rfl))⟩

/-! ## Diagnoses, clinical notes, and the EHR per-patient gates
(`generate_ehr_data.py`, `main`). -/

/-- `ICD10_CODES` from `generate_ehr_data.py`. -/
def ICD10_CODES : List (String × String) :=
  [("Hypertension", "I10"), ("Type 2 Diabetes", "E11.9"),
   ("Asthma", "J45.909"), ("Hyperlipidemia", "E78.5"),
   ("Depression", "F33.1"), ("Anxiety Disorder", "F41.9"),
   ("GERD", "K21.9"), ("Hypothyroidism", "E03.9"),
   ("Osteoarthritis", "M19.90"), ("Chronic Pain", "G89.29"),
   ("Schizophrenia", "F20.9"), ("Severe Acne", "L70.0"),
   ("Multiple Sclerosis", "G35"), ("Migraine", "G43.909"),
   ("Epilepsy", "G40.909"), ("Rheumatoid Arthritis", "M06.9"),
   ("COPD", "J44.9"), ("Atrial Fibrillation", "I48.91"),
   ("Heart Failure", "I50.9"), ("Benign Prostatic Hyperplasia", "N40.0"),
   ("Overactive Bladder", "N32.81")]

/-- One diagnosis row (the drawn date, status and provider NPI, which no
claim mentions, are omitted from the projection). -/
structure DiagRow where
  patientId : String
  diagnosisCode : String
  description : String
  isChronic : Bool
deriving DecidableEq, Repr

/-- The diagnosis loop of `generate_ehr_data.main`: one row per
condition that has an ICD-10 mapping; condition-free patients
(`conditions == 'None'`) parse to no conditions. -/
def diagnosesForPatient (pid condStr : String) : List DiagRow :=
  (parseConditions condStr).filterMap fun c =>
    (ICD10_CODES.find? (fun p => p.1 == c)).map fun p =>
      { patientId := pid, diagnosisCode := p.2, description := c,
        isChronic := c ∈ ["Hypertension", "Type 2 Diabetes", "Asthma"] }

/-- The conditions list as parsed by the lab loop of
`generate_ehr_data.main` — note the source compares against `'NaN'`
here, not `'None'`. -/
def ehrLabConditions (s : String) : List String :=
  if s = "NaN" then [] else s.splitOn "|"

/-- The lab gate of `generate_ehr_data.main`:
`if conditions and conditions[0] != 'None'`. -/
def labsForPatient (pid condStr : String) (lr : LabRand) : List LabRow :=
  if ehrLabConditions condStr ≠ [] ∧
      (ehrLabConditions condStr).head? ≠ some "None" then
    generateLabs pid (ehrLabConditions condStr) lr
  else []

/-- One clinical-note row (note text, author and department, which no
claim mentions, are omitted from the projection). -/
structure NoteRow where
  noteId : ℕ
  patientId : String
  noteType : String
deriving DecidableEq, Repr

/-- The clinical-note loop of `generate_ehr_data.main`: skipped when the
parsed condition list is empty or its head is `'None'`; otherwise 3–6
notes with types drawn from the weighted choice list. -/
def notesForPatient (noteStart : ℕ) (pid condStr : String)
    (numNotesU : ℕ) (typeU : ℕ → ℕ) : List NoteRow :=
  if (parseConditions condStr).isEmpty ∨
      (parseConditions condStr).head? = some "None" then []
  else
    (List.range (3 + numNotesU % 4)).map fun j =>
      { noteId := noteStart + j, patientId := pid,
        noteType := ["SOAP", "SOAP", "Progress", "Progress",
                     "Consultation"].getD (typeU j % 5) "SOAP" }

/-- C8: a patient whose conditions string is `'None'` produces zero
prescription rows, hence zero adjudication rows, zero diagnosis rows,
zero lab rows and zero clinical notes; the patient still receives
exactly one Primary insurance record and remains eligible for
immunization records (the immunization generator never reads the
conditions and can emit rows for any age). -/
theorem C8_condition_free_patient (pid : String) (rx k : ℕ)
    (draws : List RxDraw) (ins : List InsRecord) (ad : ℕ → AdjDraw)
    (lr : LabRand) (noteStart numNotesU : ℕ) (typeU : ℕ → ℕ)
    (age : ℕ) (du : InsDraw) :
    prescriptionsForPatient rx pid "None" draws = [] ∧
    generateAdjudications ins ad k (prescriptionsForPatient rx pid "None" draws) = [] ∧
    diagnosesForPatient pid "None" = [] ∧
    labsForPatient pid "None" lr = [] ∧
    notesForPatient noteStart pid "None" numNotesU typeU = [] ∧
    ((generateInsuranceForPatient pid age du).filter
        (fun r => r.insuranceRank == "Primary")).length = 1 ∧
    generateImmunizations pid age immDrawsCovidOnly ≠ [] := by
  have hparse : parseConditions "None" = [] := by
    rw [parseConditions, if_pos rfl]
  have hpresc : prescriptionsForPatient rx pid "None" draws = [] := by
    simp [prescriptionsForPatient, hparse]
  have hehr : ehrLabConditions "None" = ["None"] := by
    rw [ehrLabConditions, if_neg (by decide)]
    exact of_decide_eq_true (by with_unfolding_all rfl)
  refine ⟨hpresc, ?_, ?_, ?_, ?_, ?_, ?_⟩
  · rw [hpresc]
    rfl
  · simp [diagnosesForPatient, hparse]
  · rw [labsForPatient, hehr, if_neg]
    intro hcon
    exact hcon.2 rfl
  · rw [notesForPatient, if_pos]
    rw [hparse]
    exact Or.inl rfl
  · exact generateInsuranceForPatient_one_primary pid age du
  · have hcov : ∃ r, r ∈ generateImmunizations pid age immDrawsCovidOnly := by
      refine ⟨{ patientId := pid, vaccineName := "COVID-19",
                adminDate := ((immDrawsCovidOnly.covidDateU % 731 : ℕ) : ℤ),
                doseNumber := 1 + immDrawsCovidOnly.covidDoseU % 3 }, ?_⟩
      rw [generateImmunizations]
      apply List.mem_append_right
      rw [covidSegment, if_pos (by norm_num [immDrawsCovidOnly])]
      exact List.mem_singleton.mpr rfl
    obtain ⟨r, hr⟩ := hcov
    exact List.ne_nil_of_mem hr

/-- Witness for `C5_rx_number_unique_per_original` at the concrete
one-patient input: among original-fill rows the rx numbers are pairwise
distinct. -/
theorem C5_rx_number_unique_per_original_witness :
    ((generatePrescriptions 1 [prescInput0]).filter
        (fun r => r.refillNumber == 0)).Pairwise
      (fun a b => a.rxNumber ≠ b.rxNumber) :=
  (C5_rx_number_unique_per_original 1 [prescInput0]).1

/-- Witness for `C8_condition_free_patient` at concrete inputs: the
condition-free patient produces no prescription rows. -/
theorem C8_condition_free_patient_witness :
    prescriptionsForPatient 1 "PT00002" "None" [rxDraw0] = [] :=
  (C8_condition_free_patient "PT00002" 1 0 [rxDraw0] [] (fun _ => ⟨0, 0, 0, 0, 0⟩)
    labRandZero 1 0 (fun _ => 0) 40 ⟨0, 0, 1, 0⟩).1
